import Mathlib

/-!
# Webp-Master batch conversion pipeline — shallow embedding

This file embeds the core of the Webp-Master repository (the batch WebP
conversion pipeline) in Lean 4 and proves the frozen claims about it.

Embedded source files:
* `src/services/ImageConverter.ts` — `convertToWebP`, `convertMultiple`,
  `calculateCompressionRatio`, `createConversionError`, `checkAborted`,
  `cancelConversion`;
* `src/services/FileHandler.ts` — `acceptFiles`, `validateFiles`,
  `validateSingleFile`;
* the `Application` class (`updateStats`, `handleConversionError`);
* constants from the types module (`SUPPORTED_FORMATS`, `MAX_FILE_SIZE_MB`,
  `MAX_FILES_PER_BATCH`).

Modelling conventions:
* JavaScript numbers are modelled as `Nat` (byte sizes, timestamps, counters),
  `Int` (possibly negative differences / `Math.round` results) and `Rat`
  (division and running averages); floating point rounding noise is abstracted
  away, only the exact arithmetic of the formulas is modelled.
* Asynchronous per-item conversion is modelled as a pure function from an
  "environment behaviour" (`ItemBehavior`: does the file decode, does the
  encoder produce a blob, when does the item's `AbortController` become
  aborted, how large is the output, how long does the item take) to the list
  of emitted events and the settled outcome (`Except`-valued, mirroring a
  fulfilled/rejected promise).
* `Promise.all` semantics: it fulfills with the array of results when every
  input promise fulfills, and rejects as soon as the first input promise
  rejects.  The value level of this is in `convertMultiple` (a chunk
  contributes its results only when every item fulfilled) and the timing
  level is in `startTimes` / `chunkSettleDelay` (a chunk settles at the
  maximum item duration when all fulfill, and at the minimum failing
  duration otherwise).
-/

namespace WebpMaster

/-- Stage enum of the per-item pipeline (`ProcessingStage` in the source). -/
inductive ProcessingStage where
  | reading
  | processing
  | converting
  | finalizing
  deriving DecidableEq, Repr

/-- Error taxonomy (`ErrorType` in the source). -/
inductive ErrorType where
  | unsupportedFormat
  | fileTooLarge
  | processingError
  | browserCompatibility
  | unknownError
  deriving DecidableEq, Repr

/-- Terminal status of a conversion (`ConversionStatus` in the source). -/
inductive ConversionStatus where
  | pending
  | processing
  | completed
  | failed
  deriving DecidableEq, Repr

/-- A raw browser `File` handle: the fields the pipeline reads from it. -/
structure JsFile where
  name : String
  size : Nat
  type : String
  lastModified : Nat
  deriving DecidableEq, Repr

/-- `FileInfo` from the types module: the typed descriptor built by
`acceptFiles` around a raw `File`. -/
structure FileInfo where
  file : JsFile
  name : String
  size : Nat
  type : String
  lastModified : Nat
  deriving DecidableEq, Repr

/-- `ProgressInfo` from the types module. -/
structure ProgressInfo where
  id : String
  fileName : String
  progress : Nat
  stage : ProcessingStage
  message : String
  deriving DecidableEq, Repr

/-- `ConversionError` from the types module.  `details` is `String(error)`
of the underlying thrown `Error`. -/
structure ConversionError where
  id : String
  fileName : String
  errorType : ErrorType
  message : String
  details : String
  timestamp : Nat
  deriving DecidableEq, Repr

/-- `ConversionResult` from the types module.  The converted `Blob` is
represented by its byte size (`convertedSize` is set from `webpBlob.size`),
and the two object URLs by the strings the model derives from the file name
(`URL.createObjectURL` is nondeterministic in the browser; the claims never
inspect the URL contents). -/
structure ConversionResult where
  id : String
  originalFile : FileInfo
  convertedSize : Nat
  compressionRatio : Int
  originalUrl : String
  convertedUrl : String
  processingTime : Nat
  status : ConversionStatus
  deriving DecidableEq, Repr

/-- One event on the converter's three callback channels
(`progressCallbacks` / `completeCallbacks` / `errorCallbacks`). -/
inductive Event where
  | progress (p : ProgressInfo)
  | complete (r : ConversionResult)
  | errorEv (e : ConversionError)
  deriving DecidableEq, Repr

/-- `ConversionStats` from the types module (mutated by the `Application`). -/
structure ConversionStats where
  totalFilesProcessed : Nat
  totalSizeReduced : Int
  averageCompressionRatio : Rat
  averageProcessingTime : Rat
  successfulConversions : Nat
  failedConversions : Nat
  deriving DecidableEq, Repr

/-- Environment behaviour of one `convertToWebP` run: everything the browser
environment decides for this item.
* `readErr = some m` — `readFileAsImage` rejects with an `Error` whose
  message is `m` (the source rejects with one of `"Failed to read file"`,
  `"Failed to load image"`, `"FileReader error"`); `none` — it resolves.
* `convertOk` — whether `canvas.toBlob` produces a blob (`false` rejects
  with `"Failed to convert image to WebP"`).
* `blobSize` — byte size of the produced WebP blob.
* `cancelDuring = some k` — the item's `AbortController` becomes aborted
  while stage `k` (1 = reading, 2 = processing, 3 = converting,
  4 = finalizing) is in flight; the controller is created un-aborted when
  the item starts, so it cannot be aborted earlier than during stage 1.
* `elapsed` — the wall-clock duration `Date.now() - startTime` observed at
  the finalize step. -/
structure ItemBehavior where
  readErr : Option String
  convertOk : Bool
  blobSize : Nat
  cancelDuring : Option Nat
  elapsed : Nat
  deriving DecidableEq, Repr

/-- Whether a character list starts with the given pattern. -/
def startsWithList : List Char → List Char → Bool
  | [], _ => true
  | _ :: _, [] => false
  | p :: ps, c :: cs => p == c && startsWithList ps cs

/-- Whether the pattern occurs as a contiguous run of the character list. -/
def hasSubList (pat : List Char) : List Char → Bool
  | [] => pat.isEmpty
  | c :: rest => startsWithList pat (c :: rest) || hasSubList pat rest

/-- Substring test: JavaScript `String.prototype.includes`. -/
def strIncludes (s pat : String) : Bool :=
  hasSubList pat.toList s.toList

/-- JavaScript `Math.round`: round half toward positive infinity,
`Math.round x = ⌊x + 1/2⌋`. -/
def jsRound (x : Rat) : Int :=
  Int.floor (x + 1 / 2)

/-- `ImageConverter.calculateCompressionRatio`:
`if (originalSize === 0) return 0; return Math.round(((originalSize - convertedSize) / originalSize) * 100)`. -/
def calculateCompressionRatio (originalSize convertedSize : Nat) : Int :=
  if originalSize = 0 then 0
  else jsRound ((((originalSize : Int) - (convertedSize : Int) : Int) : Rat) / (originalSize : Rat) * 100)

/-- The compression-ratio formula as the spec words it:
`round(((originalSize - convertedSize) / originalSize) * 100)`, defined as 0
when `originalSize` is 0.  Stated separately from the source-derived
`calculateCompressionRatio` so the two can be compared. -/
def compressionRatioSpec (originalSize convertedSize : Nat) : Int :=
  if originalSize = 0 then 0
  else jsRound ((((originalSize : Int) - (convertedSize : Int) : Int) : Rat) / (originalSize : Rat) * 100)

/-- `ImageConverter.createConversionError`: classify a caught `Error` by
substring tests on its message (the `error instanceof Error` branch; every
failure the modelled pipeline throws is an `Error`).  `String(error)` for an
`Error` renders as `"Error: " ++ message`. -/
def createConversionError (now : Nat) (id fileName errMsg : String) : ConversionError :=
  let pair :=
    if strIncludes errMsg "cancelled" then
      (ErrorType.processingError, "変換がキャンセルされました 🚫")
    else if strIncludes errMsg "WebP" then
      (ErrorType.browserCompatibility, "WebP形式がサポートされていません 🚫")
    else if strIncludes errMsg "size" || strIncludes errMsg "large" then
      (ErrorType.fileTooLarge, "ファイルサイズが大きすぎます 📏")
    else
      (ErrorType.processingError, "処理中にエラーが発生しました: " ++ errMsg ++ " ⚠️")
  { id := id
    fileName := fileName
    errorType := pair.1
    message := pair.2
    details := "Error: " ++ errMsg
    timestamp := now }

/-- `checkAborted` observation: the abort flag of the item's controller, as
seen by the check that runs right after stage `j` (`j` = 1, 2, 3).  A flag
set during stage `k` is seen by every check from boundary `k` on. -/
def abortedAtBoundary (b : ItemBehavior) (j : Nat) : Bool :=
  match b.cancelDuring with
  | some k => decide (k ≤ j)
  | none => false

/-- Progress message of the reading stage. -/
def msgReading : String := "ファイルを読み込み中... 📖"

/-- Progress message of the processing stage. -/
def msgProcessing : String := "画像を処理中... 🎨"

/-- Progress message of the converting stage. -/
def msgConverting : String := "WebP形式に変換中... 🔄"

/-- Progress message of the finalizing stage. -/
def msgFinalizing : String := "変換完了！ ✅"

/-- The `ProgressInfo` emitted at the start of stage 1 (reading). -/
def progressInfo1 (id : String) (f : FileInfo) : ProgressInfo :=
  { id := id, fileName := f.name, progress := 0, stage := .reading, message := msgReading }

/-- The `ProgressInfo` emitted at the start of stage 2 (processing). -/
def progressInfo2 (id : String) (f : FileInfo) : ProgressInfo :=
  { id := id, fileName := f.name, progress := 25, stage := .processing, message := msgProcessing }

/-- The `ProgressInfo` emitted at the start of stage 3 (converting). -/
def progressInfo3 (id : String) (f : FileInfo) : ProgressInfo :=
  { id := id, fileName := f.name, progress := 50, stage := .converting, message := msgConverting }

/-- The `ProgressInfo` emitted at the finalize step. -/
def progressInfo4 (id : String) (f : FileInfo) : ProgressInfo :=
  { id := id, fileName := f.name, progress := 100, stage := .finalizing, message := msgFinalizing }

/-- Error path of `convertToWebP`'s `catch` block: remove the id from the
registry, build the classified `ConversionError`, notify the error channel,
and rethrow.  Returns the item's full event trace and settled outcome. -/
def failWith (now : Nat) (id fileName : String) (evs : List Event) (errMsg : String) :
    List Event × Except ConversionError ConversionResult :=
  let e := createConversionError now id fileName errMsg
  (evs ++ [Event.errorEv e], Except.error e)

/-- The `ConversionResult` packaged at the finalize step of a successful
`convertToWebP` run. -/
def successResult (id : String) (f : FileInfo) (b : ItemBehavior) : ConversionResult :=
  { id := id
    originalFile := f
    convertedSize := b.blobSize
    compressionRatio := calculateCompressionRatio f.size b.blobSize
    originalUrl := "blob:" ++ f.name
    convertedUrl := "blob:webp:" ++ f.name
    processingTime := b.elapsed
    status := .completed }

/-- `ImageConverter.convertToWebP` for one item: the 4-stage pipeline
(reading → processing → converting → finalizing) with a `checkAborted`
after each awaited stage, progress events at each stage start, a completion
event and result on success, and a classified error event plus rejection on
any failure.  `processImage` is the identity in the source and cannot fail.
The first component is the ordered list of events emitted on the converter's
channels for this item; the second is the settled outcome of the returned
promise. -/
def convertToWebP (now : Nat) (id : String) (f : FileInfo) (b : ItemBehavior) :
    List Event × Except ConversionError ConversionResult :=
  let p1 := Event.progress (progressInfo1 id f)
  match b.readErr with
  | some m => failWith now id f.name [p1] m
  | none =>
    if abortedAtBoundary b 1 then failWith now id f.name [p1] "Conversion was cancelled"
    else
      let p2 := Event.progress (progressInfo2 id f)
      if abortedAtBoundary b 2 then failWith now id f.name [p1, p2] "Conversion was cancelled"
      else
        let p3 := Event.progress (progressInfo3 id f)
        if b.convertOk = false then
          failWith now id f.name [p1, p2, p3] "Failed to convert image to WebP"
        else if abortedAtBoundary b 3 then
          failWith now id f.name [p1, p2, p3] "Conversion was cancelled"
        else
          let p4 := Event.progress (progressInfo4 id f)
          let r := successResult id f b
          ([p1, p2, p3, p4, Event.complete r], Except.ok r)

/-- One batch item: the generated conversion id, the file, and the
environment behaviour of its run. -/
def BatchItem : Type := String × FileInfo × ItemBehavior

/-- Run one batch item through `convertToWebP`. -/
def runBatchItem (now : Nat) (it : BatchItem) :
    List Event × Except ConversionError ConversionResult :=
  convertToWebP now it.1 it.2.1 it.2.2

/-- Whether a batch item's promise fulfills. -/
def itemFulfills (now : Nat) (it : BatchItem) : Bool :=
  match (runBatchItem now it).2 with
  | Except.ok _ => true
  | Except.error _ => false

/-- The result of a fulfilled batch item, `none` for a rejected one. -/
def itemResult (now : Nat) (it : BatchItem) : Option ConversionResult :=
  match (runBatchItem now it).2 with
  | Except.ok r => some r
  | Except.error _ => none

/-- The classified error of a rejected batch item, `none` for a fulfilled
one. -/
def itemError (now : Nat) (it : BatchItem) : Option ConversionError :=
  match (runBatchItem now it).2 with
  | Except.ok _ => none
  | Except.error e => some e

/-- Chunking loop of `convertMultiple`
(`for (let i = 0; i < files.length; i += maxConcurrent) files.slice(i, i + maxConcurrent)`),
with the iteration count made explicit as structural fuel (one slice consumes
at least one element when `n ≥ 1`, so `l.length` iterations always suffice).
The source loop does not terminate when `maxConcurrent = 0`; every theorem
below assumes `0 < n`. -/
def chunksAux (n : Nat) : Nat → List α → List (List α)
  | 0, _ => []
  | _ + 1, [] => []
  | fuel + 1, x :: xs => (x :: xs).take n :: chunksAux n fuel ((x :: xs).drop n)

/-- The consecutive size-`n` chunks of `l` (the last chunk possibly
smaller). -/
def chunks (n : Nat) (l : List α) : List (List α) :=
  chunksAux n l.length l

/-- Whether every item of a chunk fulfills (`Promise.all` fulfills). -/
def chunkAllOk (now : Nat) (c : List BatchItem) : Bool :=
  c.all (itemFulfills now)

/-- `ImageConverter.convertMultiple`: process the chunks in order; for each
chunk, `await Promise.all` fulfills with the chunk's results exactly when
every item fulfills, and those results are pushed onto the output — when any
item rejects, the `catch` logs the first rejection and pushes nothing, so the
whole chunk's results are dropped.  Every item of every chunk still runs to
completion and emits its own progress/completion/error events; the second
component collects them (cross-item interleaving inside a chunk is
serialized in item order, a canonical representative — no claim below
depends on cross-item event order).  The call itself always returns (it
never rethrows a conversion failure). -/
def convertMultiple (now n : Nat) (items : List BatchItem) :
    List ConversionResult × List Event :=
  (((chunks n items).map fun c =>
      if chunkAllOk now c then c.filterMap (itemResult now) else []).flatten,
   ((chunks n items).map fun c => (c.map fun it => (runBatchItem now it).1).flatten).flatten)

/-- Promise-level timing abstraction of one batch item: whether its promise
fulfills, and how many ticks after its chunk starts it settles. -/
structure ItemTiming where
  ok : Bool
  duration : Nat
  deriving DecidableEq, Repr

/-- Ticks from a chunk's start until its `Promise.all` settles: when every
item fulfills, `Promise.all` fulfills once the slowest item does (maximum
duration); otherwise it rejects as soon as the first rejecting item does
(minimum duration among the rejecting items), even while slower siblings
are still in flight. -/
def chunkSettleDelay (c : List ItemTiming) : Nat :=
  if c.all (·.ok) then ((c.map (·.duration)).foldr max 0)
  else
    match (c.filter fun i => !i.ok).map (·.duration) with
    | [] => 0
    | d :: ds => ds.foldr min d

/-- Absolute start times of the chunks: chunk 0 starts at `t`, and each next
chunk starts when the previous chunk's `Promise.all` settles. -/
def startTimes : List (List ItemTiming) → Nat → List Nat
  | [], _ => []
  | c :: cs, t => t :: startTimes cs (t + chunkSettleDelay c)

/-! ## FileHandler -/

/-- `SUPPORTED_FORMATS` from the types module. -/
def SUPPORTED_FORMATS : List String :=
  ["image/png", "image/jpeg", "image/jpg"]

/-- `MAX_FILE_SIZE_MB` from the types module. -/
def MAX_FILE_SIZE_MB : Nat := 10

/-- `MAX_FILES_PER_BATCH` from the types module. -/
def MAX_FILES_PER_BATCH : Nat := 20

/-- A batch-level validation error of `validateFiles`. -/
inductive BatchError where
  | noFiles
  | tooManyFiles
  deriving DecidableEq, Repr

/-- A per-file rule violated in `validateSingleFile`. -/
inductive FileErrorKind where
  | unsupportedFormat (declaredType : String)
  | tooLarge (size : Nat)
  | emptyFile
  deriving DecidableEq, Repr

/-- One entry of `validateFiles`' error list.  The source renders each entry
as a Japanese message string (the oversized-file message embeds the size via
`formatFileSize`, which uses floating-point `Math.log` / `Math.pow`); the
model keeps the entries as structured values carrying the same
discriminating data — the claims concern only how many entries there are
and which file each one is about. -/
inductive ValidationMsg where
  | batch (e : BatchError)
  | file (fileName : String) (kind : FileErrorKind)
  deriving DecidableEq, Repr

/-- One entry of `validateFiles`' warning list (the non-blocking
large-file warning). -/
inductive ValidationWarning where
  | largeFile (fileName : String) (size : Nat)
  deriving DecidableEq, Repr

/-- `ValidationResult` from the types module. -/
structure ValidationResult where
  isValid : Bool
  errors : List ValidationMsg
  warnings : List ValidationWarning
  deriving DecidableEq, Repr

/-- `FileHandler.validateSingleFile`: push a format error when the declared
MIME type is not in `SUPPORTED_FORMATS`, a size error when the byte size
exceeds `MAX_FILE_SIZE_MB * 1024 * 1024`, an empty-file error when it is 0,
and a non-blocking warning when it exceeds 5 MiB, in that order. -/
def validateSingleFile (fi : FileInfo) : ValidationResult :=
  let errors :=
    (if fi.type ∈ SUPPORTED_FORMATS then []
     else [ValidationMsg.file fi.name (.unsupportedFormat fi.type)]) ++
    (if fi.size > MAX_FILE_SIZE_MB * 1024 * 1024 then
       [ValidationMsg.file fi.name (.tooLarge fi.size)]
     else []) ++
    (if fi.size = 0 then [ValidationMsg.file fi.name .emptyFile] else [])
  let warnings :=
    if fi.size > 5 * 1024 * 1024 then [ValidationWarning.largeFile fi.name fi.size] else []
  { isValid := errors.isEmpty, errors := errors, warnings := warnings }

/-- `FileHandler.validateFiles`: batch-level checks (empty selection, more
than `MAX_FILES_PER_BATCH` files) followed by the per-file checks of every
file, errors and warnings accumulated in order; `isValid` is
`errors.length === 0`. -/
def validateFiles (files : List FileInfo) : ValidationResult :=
  let batchErrors :=
    (if files.length = 0 then [ValidationMsg.batch .noFiles] else []) ++
    (if files.length > MAX_FILES_PER_BATCH then [ValidationMsg.batch .tooManyFiles] else [])
  let errors := batchErrors ++ (files.map fun fi => (validateSingleFile fi).errors).flatten
  let warnings := (files.map fun fi => (validateSingleFile fi).warnings).flatten
  { isValid := errors.isEmpty, errors := errors, warnings := warnings }

/-- Whether a file violates the per-file policy (wrong format, oversized,
or empty) — i.e. whether `validateSingleFile` reports at least one error
for it. -/
def violatesPolicy (fi : FileInfo) : Bool :=
  decide (¬ fi.type ∈ SUPPORTED_FORMATS) ||
    decide (fi.size > MAX_FILE_SIZE_MB * 1024 * 1024) || decide (fi.size = 0)

/-- Number of per-file rules a file violates (each contributes one error
entry in `validateSingleFile`). -/
def ruleViolationCount (fi : FileInfo) : Nat :=
  (if fi.type ∈ SUPPORTED_FORMATS then 0 else 1) +
    (if fi.size > MAX_FILE_SIZE_MB * 1024 * 1024 then 1 else 0) +
    (if fi.size = 0 then 1 else 0)

/-- Mutable state of a `FileHandler` instance that `acceptFiles` can read:
the disposed guard (the callback list and the selected-files cache are not
referenced by `acceptFiles`). -/
structure FileHandlerState where
  isDisposed : Bool
  deriving DecidableEq, Repr

/-- The `FileInfo` descriptor `acceptFiles` builds for one raw file. -/
def toFileInfo (f : JsFile) : FileInfo :=
  { file := f, name := f.name, size := f.size, type := f.type,
    lastModified := f.lastModified }

/-- `FileHandler.acceptFiles`: after the disposed guard, wrap every raw file
of the input, in order, into a `FileInfo`; no validation, no rejection of
any file. -/
def acceptFiles (st : FileHandlerState) (files : List JsFile) :
    Except String (List FileInfo) :=
  if st.isDisposed then Except.error "FileHandler has been disposed"
  else Except.ok (files.map toFileInfo)

/-! ## Converter registry and Application stats -/

/-- Mutable state of an `ImageConverter` instance as seen by
`cancelConversion`: the active-conversions registry (insertion-ordered map
from conversion id to the aborted flag of that conversion's
`AbortController`) and the disposed guard.  `cancelConversion` references no
other field of the class. -/
structure ConverterState where
  activeConversions : List (String × Bool)
  isDisposed : Bool
  deriving DecidableEq, Repr

/-- `ImageConverter.cancelConversion`: after the disposed guard, look the id
up in the registry; when present, abort its controller (the in-flight item
observes this through `ItemBehavior.cancelDuring`) and remove the entry;
when absent, do nothing.  It emits no events on any channel. -/
def cancelConversion (st : ConverterState) (id : String) :
    Except String (ConverterState × List Event) :=
  if st.isDisposed then Except.error "ImageConverter has been disposed"
  else
    match st.activeConversions.lookup id with
    | some _ =>
        Except.ok
          ({ st with
              activeConversions :=
                (st.activeConversions.map fun p => if p.1 == id then (p.1, true) else p).filter
                  fun p => !(p.1 == id) },
           [])
    | none => Except.ok (st, [])

/-- `Application.updateStats`, run on each completion event: increment the
processed and success counters, add the size reduction, and fold the new
compression ratio and processing time into the running averages (the source
mutates `successfulConversions` first, so the divisor is the post-increment
success count and the multiplier the pre-increment one). -/
def updateStats (s : ConversionStats) (r : ConversionResult) : ConversionStats :=
  let succ := s.successfulConversions + 1
  { totalFilesProcessed := s.totalFilesProcessed + 1
    successfulConversions := succ
    totalSizeReduced := s.totalSizeReduced + ((r.originalFile.size : Int) - (r.convertedSize : Int))
    averageCompressionRatio :=
      (s.averageCompressionRatio * ((succ : Rat) - 1) + (r.compressionRatio : Rat)) / (succ : Rat)
    averageProcessingTime :=
      (s.averageProcessingTime * ((succ : Rat) - 1) + (r.processingTime : Rat)) / (succ : Rat)
    failedConversions := s.failedConversions }

/-- Stats effect of `Application.handleConversionError`, run on each error
event: `this.stats.failedConversions++` and nothing else (the rest of the
handler only displays the error). -/
def handleConversionError (s : ConversionStats) : ConversionStats :=
  { s with failedConversions := s.failedConversions + 1 }

/-! ## Event-channel projections -/

/-- The progress events of a trace, in order. -/
def progressEvents (evs : List Event) : List ProgressInfo :=
  evs.filterMap fun e =>
    match e with
    | Event.progress p => some p
    | _ => none

/-- The completion events of a trace, in order. -/
def completeEvents (evs : List Event) : List ConversionResult :=
  evs.filterMap fun e =>
    match e with
    | Event.complete r => some r
    | _ => none

/-- The error events of a trace, in order. -/
def errorEvents (evs : List Event) : List ConversionError :=
  evs.filterMap fun e =>
    match e with
    | Event.errorEv x => some x
    | _ => none

/-! ## Per-item lemmas: the five settled shapes of `convertToWebP` -/

lemma abortedAtBoundary_false_of_le (b : ItemBehavior) {j j' : Nat} (h : j ≤ j')
    (h' : abortedAtBoundary b j' = false) : abortedAtBoundary b j = false := by
  unfold abortedAtBoundary at h' ⊢
  cases hcd : b.cancelDuring with
  | none => rfl
  | some k =>
    rw [hcd] at h'
    simp only [decide_eq_false_iff_not] at h' ⊢
    omega

lemma convertToWebP_readFail (now : Nat) (id : String) (f : FileInfo) (b : ItemBehavior)
    (m : String) (h : b.readErr = some m) :
    convertToWebP now id f b =
      ([Event.progress (progressInfo1 id f),
        Event.errorEv (createConversionError now id f.name m)],
       Except.error (createConversionError now id f.name m)) := by
  simp [convertToWebP, h, failWith]

lemma convertToWebP_cancelled1 (now : Nat) (id : String) (f : FileInfo) (b : ItemBehavior)
    (h : b.readErr = none) (ha : abortedAtBoundary b 1 = true) :
    convertToWebP now id f b =
      ([Event.progress (progressInfo1 id f),
        Event.errorEv (createConversionError now id f.name "Conversion was cancelled")],
       Except.error (createConversionError now id f.name "Conversion was cancelled")) := by
  simp [convertToWebP, h, ha, failWith]

lemma convertToWebP_cancelled2 (now : Nat) (id : String) (f : FileInfo) (b : ItemBehavior)
    (h : b.readErr = none) (ha1 : abortedAtBoundary b 1 = false)
    (ha2 : abortedAtBoundary b 2 = true) :
    convertToWebP now id f b =
      ([Event.progress (progressInfo1 id f), Event.progress (progressInfo2 id f),
        Event.errorEv (createConversionError now id f.name "Conversion was cancelled")],
       Except.error (createConversionError now id f.name "Conversion was cancelled")) := by
  simp [convertToWebP, h, ha1, ha2, failWith]

lemma convertToWebP_convertFail (now : Nat) (id : String) (f : FileInfo) (b : ItemBehavior)
    (h : b.readErr = none) (ha1 : abortedAtBoundary b 1 = false)
    (ha2 : abortedAtBoundary b 2 = false) (hc : b.convertOk = false) :
    convertToWebP now id f b =
      ([Event.progress (progressInfo1 id f), Event.progress (progressInfo2 id f),
        Event.progress (progressInfo3 id f),
        Event.errorEv (createConversionError now id f.name "Failed to convert image to WebP")],
       Except.error (createConversionError now id f.name "Failed to convert image to WebP")) := by
  simp [convertToWebP, h, ha1, ha2, hc, failWith]

lemma convertToWebP_cancelled3 (now : Nat) (id : String) (f : FileInfo) (b : ItemBehavior)
    (h : b.readErr = none) (ha1 : abortedAtBoundary b 1 = false)
    (ha2 : abortedAtBoundary b 2 = false) (hc : b.convertOk = true)
    (ha3 : abortedAtBoundary b 3 = true) :
    convertToWebP now id f b =
      ([Event.progress (progressInfo1 id f), Event.progress (progressInfo2 id f),
        Event.progress (progressInfo3 id f),
        Event.errorEv (createConversionError now id f.name "Conversion was cancelled")],
       Except.error (createConversionError now id f.name "Conversion was cancelled")) := by
  simp [convertToWebP, h, ha1, ha2, hc, ha3, failWith]

lemma convertToWebP_success (now : Nat) (id : String) (f : FileInfo) (b : ItemBehavior)
    (h : b.readErr = none) (hc : b.convertOk = true)
    (ha3 : abortedAtBoundary b 3 = false) :
    convertToWebP now id f b =
      ([Event.progress (progressInfo1 id f), Event.progress (progressInfo2 id f),
        Event.progress (progressInfo3 id f), Event.progress (progressInfo4 id f),
        Event.complete (successResult id f b)],
       Except.ok (successResult id f b)) := by
  have ha1 : abortedAtBoundary b 1 = false := abortedAtBoundary_false_of_le b (by omega) ha3
  have ha2 : abortedAtBoundary b 2 = false := abortedAtBoundary_false_of_le b (by omega) ha3
  simp [convertToWebP, h, ha1, ha2, hc, ha3]

lemma convertToWebP_ok_inv (now : Nat) (id : String) (f : FileInfo) (b : ItemBehavior)
    (r : ConversionResult) (h : (convertToWebP now id f b).2 = Except.ok r) :
    b.readErr = none ∧ b.convertOk = true ∧ abortedAtBoundary b 3 = false ∧
      r = successResult id f b := by
  rcases hre : b.readErr with _ | m
  · by_cases ha1 : abortedAtBoundary b 1 = true
    · rw [convertToWebP_cancelled1 now id f b hre ha1] at h
      simp at h
    · have ha1' : abortedAtBoundary b 1 = false := by
        simpa using ha1
      by_cases ha2 : abortedAtBoundary b 2 = true
      · rw [convertToWebP_cancelled2 now id f b hre ha1' ha2] at h
        simp at h
      · have ha2' : abortedAtBoundary b 2 = false := by
          simpa using ha2
        rcases hc : b.convertOk with _ | _
        · rw [convertToWebP_convertFail now id f b hre ha1' ha2' hc] at h
          simp at h
        · by_cases ha3 : abortedAtBoundary b 3 = true
          · rw [convertToWebP_cancelled3 now id f b hre ha1' ha2' hc ha3] at h
            simp at h
          · have ha3' : abortedAtBoundary b 3 = false := by
              simpa using ha3
            rw [convertToWebP_success now id f b hre hc ha3'] at h
            simp at h
            exact ⟨rfl, rfl, ha3', h.symm⟩
  · rw [convertToWebP_readFail now id f b m hre] at h
    simp at h

lemma convertToWebP_channels (now : Nat) (id : String) (f : FileInfo) (b : ItemBehavior) :
    errorEvents (convertToWebP now id f b).1 =
      (match (convertToWebP now id f b).2 with
       | Except.ok _ => []
       | Except.error e => [e])
    ∧ completeEvents (convertToWebP now id f b).1 =
      (match (convertToWebP now id f b).2 with
       | Except.ok r => [r]
       | Except.error _ => []) := by
  rcases hre : b.readErr with _ | m
  case none =>
    by_cases ha1 : abortedAtBoundary b 1 = true
    · rw [convertToWebP_cancelled1 now id f b hre ha1]
      simp [errorEvents, completeEvents]
    · have ha1' : abortedAtBoundary b 1 = false := by simpa using ha1
      by_cases ha2 : abortedAtBoundary b 2 = true
      · rw [convertToWebP_cancelled2 now id f b hre ha1' ha2]
        simp [errorEvents, completeEvents]
      · have ha2' : abortedAtBoundary b 2 = false := by simpa using ha2
        rcases hc : b.convertOk with _ | _
        · rw [convertToWebP_convertFail now id f b hre ha1' ha2' hc]
          simp [errorEvents, completeEvents]
        · by_cases ha3 : abortedAtBoundary b 3 = true
          · rw [convertToWebP_cancelled3 now id f b hre ha1' ha2' hc ha3]
            simp [errorEvents, completeEvents]
          · have ha3' : abortedAtBoundary b 3 = false := by simpa using ha3
            rw [convertToWebP_success now id f b hre hc ha3']
            simp [errorEvents, completeEvents]
  case some =>
    rw [convertToWebP_readFail now id f b m hre]
    simp [errorEvents, completeEvents]

lemma errorEvents_runBatchItem (now : Nat) (it : BatchItem) :
    errorEvents (runBatchItem now it).1 = (itemError now it).toList := by
  have h := (convertToWebP_channels now it.1 it.2.1 it.2.2).1
  rw [runBatchItem, itemError, runBatchItem]
  rw [h]
  cases (convertToWebP now it.1 it.2.1 it.2.2).2 <;> rfl

lemma completeEvents_runBatchItem (now : Nat) (it : BatchItem) :
    completeEvents (runBatchItem now it).1 = (itemResult now it).toList := by
  have h := (convertToWebP_channels now it.1 it.2.1 it.2.2).2
  rw [runBatchItem, itemResult, runBatchItem]
  rw [h]
  cases (convertToWebP now it.1 it.2.1 it.2.2).2 <;> rfl

/-! ## Chunking lemmas -/

lemma chunksAux_nil (n fuel : Nat) : chunksAux n fuel ([] : List α) = [] := by
  cases fuel <;> rfl

lemma chunksAux_adequate (n : Nat) (hn : 0 < n) :
    ∀ (fuel : Nat) (l : List α), l.length ≤ fuel →
      (chunksAux n fuel l).flatten = l := by
  intro fuel
  induction fuel with
  | zero =>
    intro l hl
    have : l = [] := List.eq_nil_of_length_eq_zero (Nat.le_zero.mp hl)
    simp [this, chunksAux]
  | succ fuel ih =>
    intro l hl
    cases l with
    | nil => simp [chunksAux]
    | cons x xs =>
      simp only [chunksAux, List.flatten_cons]
      rw [ih ((x :: xs).drop n) (by simp only [List.length_drop, List.length_cons] at hl ⊢; omega)]
      exact List.take_append_drop n (x :: xs)

lemma chunks_flatten (n : Nat) (hn : 0 < n) (l : List α) :
    (chunks n l).flatten = l :=
  chunksAux_adequate n hn l.length l le_rfl

lemma chunksAux_length_bounds (n : Nat) (hn : 0 < n) :
    ∀ (fuel : Nat) (l : List α), l.length ≤ fuel →
      ∀ c ∈ chunksAux n fuel l, 0 < c.length ∧ c.length ≤ n := by
  intro fuel
  induction fuel with
  | zero =>
    intro l hl c hc
    have : l = [] := List.eq_nil_of_length_eq_zero (Nat.le_zero.mp hl)
    subst this
    simp [chunksAux] at hc
  | succ fuel ih =>
    intro l hl c hc
    cases l with
    | nil => simp [chunksAux] at hc
    | cons x xs =>
      simp only [chunksAux, List.mem_cons] at hc
      rcases hc with hc | hc
      · subst hc
        constructor
        · simp [List.length_take]
          omega
        · simp [List.length_take]
      · exact ih ((x :: xs).drop n) (by simp only [List.length_drop, List.length_cons] at hl ⊢; omega) c hc

lemma chunksAux_dropLast_full (n : Nat) (hn : 0 < n) :
    ∀ (fuel : Nat) (l : List α), l.length ≤ fuel →
      ∀ c ∈ (chunksAux n fuel l).dropLast, c.length = n := by
  intro fuel
  induction fuel with
  | zero =>
    intro l hl c hc
    have : l = [] := List.eq_nil_of_length_eq_zero (Nat.le_zero.mp hl)
    subst this
    simp [chunksAux] at hc
  | succ fuel ih =>
    intro l hl c hc
    cases l with
    | nil => simp [chunksAux] at hc
    | cons x xs =>
      simp only [chunksAux] at hc
      by_cases hrest : chunksAux n fuel ((x :: xs).drop n) = []
      · rw [hrest] at hc
        simp at hc
      · rw [List.dropLast_cons_of_ne_nil hrest, List.mem_cons] at hc
        rcases hc with hc | hc
        · subst hc
          have hdrop : (x :: xs).drop n ≠ [] := by
            intro hd
            rw [hd, chunksAux_nil] at hrest
            exact hrest rfl
          have : n < (x :: xs).length := by
            by_contra hcon
            exact hdrop (List.drop_eq_nil_of_le (by omega))
          simp only [List.length_cons] at this
          simp [List.length_take]
          omega
        · exact ih ((x :: xs).drop n) (by simp only [List.length_drop, List.length_cons] at hl ⊢; omega) c hc

/-! ## Generic list lemmas for the batch loop -/

lemma flatten_map_ite_filter (p : List β → Bool) (g : List β → List γ) :
    ∀ l : List (List β),
      (l.map fun c => if p c then g c else []).flatten = ((l.filter p).map g).flatten := by
  intro l
  induction l with
  | nil => rfl
  | cons c cs ih =>
    rcases hp : p c with _ | _ <;> simp [hp, ih]

lemma flatten_map_flatten (g : β → List γ) :
    ∀ cs : List (List β),
      ((cs.map fun c => (c.map g).flatten).flatten) = (cs.flatten.map g).flatten := by
  intro cs
  induction cs with
  | nil => rfl
  | cons c rest ih => simp [ih]

lemma filterMap_flatten (g : α → Option β) :
    ∀ ls : List (List α), (ls.flatten).filterMap g = (ls.map (List.filterMap g)).flatten := by
  intro ls
  induction ls with
  | nil => rfl
  | cons l rest ih => simp [List.filterMap_append, ih]

lemma flatten_map_toList (g : α → Option β) :
    ∀ l : List α, (l.map fun a => (g a).toList).flatten = l.filterMap g := by
  intro l
  induction l with
  | nil => rfl
  | cons a rest ih =>
    rcases hg : g a with _ | b <;> simp [hg, ih]

/-! ## Timing lemmas -/

lemma le_foldr_max (l : List Nat) : ∀ x ∈ l, x ≤ l.foldr max 0 := by
  induction l with
  | nil => intro x hx; cases hx
  | cons y ys ih =>
    intro x hx
    rcases List.mem_cons.mp hx with hx | hx
    · subst hx
      exact Nat.le_max_left _ _
    · exact le_trans (ih x hx) (Nat.le_max_right _ _)

lemma startTimes_length (cs : List (List ItemTiming)) (t : Nat) :
    (startTimes cs t).length = cs.length := by
  induction cs generalizing t with
  | nil => rfl
  | cons c rest ih => simp [startTimes, ih]

lemma startTimes_settle (cs : List (List ItemTiming)) :
    ∀ (t k : Nat), k + 1 < cs.length →
      ((cs.getD k []).all (·.ok) = true) →
      ∀ it ∈ cs.getD k [],
        (startTimes cs t).getD k 0 + it.duration ≤ (startTimes cs t).getD (k + 1) 0 := by
  induction cs with
  | nil =>
    intro t k hk
    simp at hk
  | cons c rest ih =>
    intro t k hk hok it hit
    cases k with
    | zero =>
      cases rest with
      | nil => simp at hk
      | cons c2 rest2 =>
        simp only [List.getD_cons_zero] at hok hit
        simp only [startTimes, List.getD_cons_zero, List.getD_cons_succ]
        have hdur : it.duration ≤ chunkSettleDelay c := by
          rw [chunkSettleDelay, if_pos hok]
          exact le_foldr_max _ _ (List.mem_map_of_mem (·.duration) hit)
        omega
    | succ k' =>
      simp only [List.getD_cons_succ] at hok hit ⊢
      simp only [startTimes, List.getD_cons_succ]
      exact ih (t + chunkSettleDelay c) k' (by simpa using hk) hok it hit

/-! ## Concrete instances used by witnesses and counterexamples -/

/-- Placeholder raw file used as a `getD` default. -/
def noJsFile : JsFile := ⟨"", 0, "", 0⟩

/-- A well-formed PNG input file. -/
def demoFileA : FileInfo := toFileInfo ⟨"photo.png", 100, "image/png", 11⟩

/-- A JPEG input file (used as the corrupt one in the batch demos). -/
def demoFileB : FileInfo := toFileInfo ⟨"scan.jpg", 200, "image/jpeg", 12⟩

/-- Another well-formed PNG input file. -/
def demoFileC : FileInfo := toFileInfo ⟨"art.png", 300, "image/png", 13⟩

/-- Environment behaviour of a conversion that succeeds. -/
def demoBehaviorOk : ItemBehavior := ⟨none, true, 40, none, 7⟩

/-- Environment behaviour of a conversion whose image fails to decode. -/
def demoBehaviorBad : ItemBehavior := ⟨some "Failed to load image", true, 0, none, 0⟩

/-- Environment behaviour of a conversion cancelled while stage 2 is in
flight. -/
def demoBehaviorCancel2 : ItemBehavior := ⟨none, true, 40, some 2, 7⟩

/-- A 3-file batch whose middle file fails to decode. -/
def demoItems : List BatchItem :=
  [("id1", demoFileA, demoBehaviorOk),
   ("id2", demoFileB, demoBehaviorBad),
   ("id3", demoFileC, demoBehaviorOk)]

/-- The result packaged by the successful demo run. -/
def demoOkResult : ConversionResult := successResult "cid1" demoFileA demoBehaviorOk

/-- Promise timings of a 3-item batch: the first item fulfills after 5
ticks, the second rejects after 1 tick, the third fulfills after 7 ticks. -/
def demoTimings : List ItemTiming := [⟨true, 5⟩, ⟨false, 1⟩, ⟨true, 7⟩]

/-- A file that passes every validation rule. -/
def demoValidFile : FileInfo := toFileInfo ⟨"a.png", 5, "image/png", 0⟩

/-- A file violating two rules at once: unsupported format and empty. -/
def demoBadFile : FileInfo := toFileInfo ⟨"weird.txt", 0, "text/plain", 0⟩

/-- A registry with one live conversion, not disposed. -/
def demoRegistry : ConverterState := ⟨[("live", false)], false⟩

/-- `getD` default batch item. -/
def dummyBatchItem : BatchItem := ("", toFileInfo noJsFile, ⟨none, true, 0, none, 0⟩)

/-- `getD` default trace. -/
def dummyTrace : List Event × Except ConversionError ConversionResult :=
  ([], Except.error ⟨"", "", .unknownError, "", "", 0⟩)

/-- Raw input files for the `acceptFiles` witness. -/
def demoRawFiles : List JsFile := [⟨"x.png", 3, "image/png", 1⟩, ⟨"y.jpg", 9, "image/jpeg", 2⟩]

/-- `Application.initializeStats`: the all-zero initial statistics. -/
def initializeStats : ConversionStats := ⟨0, 0, 0, 0, 0, 0⟩

/-- A successful result carrying a given compression ratio (used to replay
the spec's worked stats example). -/
def statsProbe (q : Int) : ConversionResult :=
  ⟨"", toFileInfo noJsFile, 0, q, "", "", 0, .completed⟩

/-! ## C3 — compression-ratio formula -/

/-- C3: for every conversion that completes successfully, the
`compressionRatio` field of the produced `ConversionResult` equals
`round(((originalSize - convertedSize) / originalSize) * 100)` computed from
the original file's size and the result's converted size, and it equals 0
when the original size is 0. -/
theorem compressionRatio_matches_spec (now : Nat) (id : String) (f : FileInfo)
    (b : ItemBehavior) (r : ConversionResult)
    (h : (convertToWebP now id f b).2 = Except.ok r) :
    r.compressionRatio = compressionRatioSpec f.size r.convertedSize
    ∧ (f.size = 0 → r.compressionRatio = 0) := by
  obtain ⟨-, -, -, hr⟩ := convertToWebP_ok_inv now id f b r h
  subst hr
  refine ⟨rfl, ?_⟩
  intro h0
  simp [successResult, calculateCompressionRatio, h0]

/-- Witness for C3 at a concrete successful conversion. -/
theorem compressionRatio_matches_spec_witness :
    (convertToWebP 9 "cid1" demoFileA demoBehaviorOk).2 = Except.ok demoOkResult
    ∧ demoOkResult.compressionRatio =
        compressionRatioSpec demoFileA.size demoOkResult.convertedSize :=
  ⟨rfl, (compressionRatio_matches_spec 9 "cid1" demoFileA demoBehaviorOk demoOkResult rfl).1⟩

/-! ## C4 — stats aggregation -/

/-- C4: on each successful result the processed and success counters are
incremented, `originalSize - convertedSize` is added to the total size
reduction, and both running averages follow
`avg' = (avg * (n - 1) + newValue) / n` with `n` the post-increment success
count; on each failure only the failure counter is incremented.  The final
three conjuncts replay the spec's worked example (ratios 50 then 30 average
to 40; a subsequent failure leaves the average at 40 and bumps the failure
counter). -/
theorem updateStats_matches_spec (s : ConversionStats) (r : ConversionResult) :
    (updateStats s r).totalFilesProcessed = s.totalFilesProcessed + 1
    ∧ (updateStats s r).successfulConversions = s.successfulConversions + 1
    ∧ (updateStats s r).totalSizeReduced =
        s.totalSizeReduced + ((r.originalFile.size : Int) - (r.convertedSize : Int))
    ∧ (updateStats s r).averageCompressionRatio =
        (s.averageCompressionRatio * (((s.successfulConversions + 1 : Nat) : Rat) - 1) +
          (r.compressionRatio : Rat)) / ((s.successfulConversions + 1 : Nat) : Rat)
    ∧ (updateStats s r).averageProcessingTime =
        (s.averageProcessingTime * (((s.successfulConversions + 1 : Nat) : Rat) - 1) +
          (r.processingTime : Rat)) / ((s.successfulConversions + 1 : Nat) : Rat)
    ∧ (updateStats s r).failedConversions = s.failedConversions
    ∧ handleConversionError s = { s with failedConversions := s.failedConversions + 1 }
    ∧ (updateStats (updateStats initializeStats (statsProbe 50))
        (statsProbe 30)).averageCompressionRatio = 40
    ∧ (handleConversionError (updateStats (updateStats initializeStats (statsProbe 50))
        (statsProbe 30))).averageCompressionRatio = 40
    ∧ (handleConversionError (updateStats (updateStats initializeStats (statsProbe 50))
        (statsProbe 30))).failedConversions =
        (updateStats (updateStats initializeStats (statsProbe 50))
          (statsProbe 30)).failedConversions + 1 := by
  refine ⟨rfl, rfl, rfl, rfl, rfl, rfl, rfl, ?_, ?_, rfl⟩
  · norm_num [updateStats, initializeStats, statsProbe]
  · norm_num [updateStats, handleConversionError, initializeStats, statsProbe]

/-! ## C9 — cancelConversion on an unknown id -/

/-- C9: on a non-disposed converter, cancelling an id that is not in the
active-conversions registry does not throw, emits no events and leaves the
state unchanged. -/
theorem cancelConversion_unknown_id_noop (st : ConverterState) (id : String)
    (h1 : st.isDisposed = false) (h2 : st.activeConversions.lookup id = none) :
    cancelConversion st id = Except.ok (st, []) := by
  simp [cancelConversion, h1, h2]

/-- Witness for C9 at a concrete registry and a concrete unknown id. -/
theorem cancelConversion_unknown_id_noop_witness :
    demoRegistry.isDisposed = false
    ∧ demoRegistry.activeConversions.lookup "gone" = none
    ∧ cancelConversion demoRegistry "gone" = Except.ok (demoRegistry, []) :=
  ⟨rfl, rfl, cancelConversion_unknown_id_noop demoRegistry "gone" rfl rfl⟩

/-! ## C10 — acceptFiles -/

/-- C10: on a non-disposed handler, `acceptFiles` returns one descriptor per
input file, in the same order, whose `name`, `size`, `type` and
`lastModified` fields copy the corresponding raw-file fields; it validates
nothing and rejects nothing. -/
theorem acceptFiles_preserves_files (st : FileHandlerState) (files : List JsFile)
    (h : st.isDisposed = false) :
    acceptFiles st files = Except.ok (files.map toFileInfo)
    ∧ (files.map toFileInfo).length = files.length
    ∧ ∀ i, i < files.length →
        ((files.map toFileInfo).getD i (toFileInfo noJsFile)).name = (files.getD i noJsFile).name
        ∧ ((files.map toFileInfo).getD i (toFileInfo noJsFile)).size = (files.getD i noJsFile).size
        ∧ ((files.map toFileInfo).getD i (toFileInfo noJsFile)).type = (files.getD i noJsFile).type
        ∧ ((files.map toFileInfo).getD i (toFileInfo noJsFile)).lastModified =
            (files.getD i noJsFile).lastModified := by
  refine ⟨by simp [acceptFiles, h], by simp, ?_⟩
  intro i hi
  have hmap : (files.map toFileInfo).getD i (toFileInfo noJsFile) =
      toFileInfo (files.getD i noJsFile) := by
    rw [List.getD_eq_getElem?_getD, List.getD_eq_getElem?_getD, List.getElem?_map]
    cases files[i]? <;> rfl
  rw [hmap]
  exact ⟨rfl, rfl, rfl, rfl⟩

/-- Witness for C10 on a concrete two-file input. -/
theorem acceptFiles_preserves_files_witness :
    acceptFiles ⟨false⟩ demoRawFiles = Except.ok (demoRawFiles.map toFileInfo)
    ∧ (demoRawFiles.map toFileInfo).length = demoRawFiles.length
    ∧ ∀ i, i < demoRawFiles.length →
        ((demoRawFiles.map toFileInfo).getD i (toFileInfo noJsFile)).name =
            (demoRawFiles.getD i noJsFile).name
        ∧ ((demoRawFiles.map toFileInfo).getD i (toFileInfo noJsFile)).size =
            (demoRawFiles.getD i noJsFile).size
        ∧ ((demoRawFiles.map toFileInfo).getD i (toFileInfo noJsFile)).type =
            (demoRawFiles.getD i noJsFile).type
        ∧ ((demoRawFiles.map toFileInfo).getD i (toFileInfo noJsFile)).lastModified =
            (demoRawFiles.getD i noJsFile).lastModified :=
  acceptFiles_preserves_files ⟨false⟩ demoRawFiles rfl

/-! ## C5 / C6 — validateFiles -/

lemma validateFiles_isValid_eq (files : List FileInfo) :
    (validateFiles files).isValid = (validateFiles files).errors.isEmpty := rfl

lemma validateFiles_errors_eq (files : List FileInfo) :
    (validateFiles files).errors =
      ((if files.length = 0 then [ValidationMsg.batch .noFiles] else []) ++
       (if files.length > MAX_FILES_PER_BATCH then [ValidationMsg.batch .tooManyFiles] else [])) ++
      (files.map fun fi => (validateSingleFile fi).errors).flatten := rfl

lemma validateSingleFile_errors_length (fi : FileInfo) :
    (validateSingleFile fi).errors.length = ruleViolationCount fi
    ∧ (violatesPolicy fi = true ↔ 1 ≤ ruleViolationCount fi) := by
  by_cases h1 : fi.type ∈ SUPPORTED_FORMATS <;>
    by_cases h2 : fi.size > MAX_FILE_SIZE_MB * 1024 * 1024 <;>
      by_cases h3 : fi.size = 0 <;>
        simp [validateSingleFile, ruleViolationCount, violatesPolicy, h1, h2, h3]

/-- C5: for every batch, the verdict's `isValid` flag is true exactly when
its error list is empty; and every non-empty batch of at most
`MAX_FILES_PER_BATCH` files whose files all have an allow-listed MIME type
and a positive size of at most `MAX_FILE_SIZE_MB` MiB validates with
`isValid = true` and an empty error list. -/
theorem validateFiles_valid_iff_no_errors (files : List FileInfo) :
    ((validateFiles files).isValid = true ↔ (validateFiles files).errors = [])
    ∧ (files ≠ [] → files.length ≤ MAX_FILES_PER_BATCH →
        (∀ fi ∈ files, fi.type ∈ SUPPORTED_FORMATS ∧ 0 < fi.size ∧
          fi.size ≤ MAX_FILE_SIZE_MB * 1024 * 1024) →
        (validateFiles files).isValid = true ∧ (validateFiles files).errors = []) := by
  constructor
  · rw [validateFiles_isValid_eq, List.isEmpty_iff]
  · intro hne hlen hall
    have h0 : ¬ files.length = 0 := by
      intro h
      exact hne (List.eq_nil_of_length_eq_zero h)
    have h20 : ¬ files.length > MAX_FILES_PER_BATCH := by omega
    have herr : (validateFiles files).errors = [] := by
      rw [validateFiles_errors_eq, if_neg h0, if_neg h20]
      simp only [List.nil_append, List.append_nil, List.flatten_eq_nil_iff, List.mem_map,
        forall_exists_index, and_imp]
      rintro l fi hfi rfl
      obtain ⟨ht, hpos, hle⟩ := hall fi hfi
      have hA : ¬ fi.size > MAX_FILE_SIZE_MB * 1024 * 1024 := by omega
      have hB : ¬ fi.size = 0 := by omega
      simp [validateSingleFile, ht, hA, hB]
    refine ⟨?_, herr⟩
    rw [validateFiles_isValid_eq, herr]
    rfl

/-- Witness for C5 on a concrete one-file valid batch. -/
theorem validateFiles_valid_iff_no_errors_witness :
    ([demoValidFile] ≠ ([] : List FileInfo))
    ∧ [demoValidFile].length ≤ MAX_FILES_PER_BATCH
    ∧ (∀ fi ∈ [demoValidFile], fi.type ∈ SUPPORTED_FORMATS ∧ 0 < fi.size ∧
        fi.size ≤ MAX_FILE_SIZE_MB * 1024 * 1024)
    ∧ (validateFiles [demoValidFile]).isValid = true
    ∧ (validateFiles [demoValidFile]).errors = [] := by
  refine ⟨by decide, by decide, by decide, ?_⟩
  exact (validateFiles_valid_iff_no_errors [demoValidFile]).2 (by decide) (by decide) (by decide)

/-- Counterexample to C6 as frozen: a batch whose single file violates two
rules at once (unsupported format and empty file) yields `isValid = false`
with **two** error entries, though only one file of the batch violates the
policy — the error list does not contain one entry per violating file. -/
theorem validateFiles_two_errors_one_file :
    (validateFiles [demoBadFile]).isValid = false
    ∧ (validateFiles [demoBadFile]).errors.length = 2
    ∧ ([demoBadFile].filter violatesPolicy).length = 1 := by
  decide

/-- C6 (amended): a batch with at least one policy-violating file validates
with `isValid = false`; each file contributes exactly one error entry per
violated rule (so at least one entry per violating file, and possibly two);
and — with no batch-level error in play — the error list accumulates those
entries across all files of the batch, never short-circuiting at the first
violation. -/
theorem validateFiles_error_accumulation (files : List FileInfo)
    (h : ∃ fi ∈ files, violatesPolicy fi = true) :
    (validateFiles files).isValid = false
    ∧ (∀ fi : FileInfo, (validateSingleFile fi).errors.length = ruleViolationCount fi
        ∧ (violatesPolicy fi = true ↔ 1 ≤ ruleViolationCount fi))
    ∧ (files.length ≤ MAX_FILES_PER_BATCH →
        (validateFiles files).errors.length = (files.map ruleViolationCount).sum) := by
  obtain ⟨fi, hfi, hv⟩ := h
  have hcount : 1 ≤ ruleViolationCount fi :=
    (validateSingleFile_errors_length fi).2.mp hv
  have hne : (validateSingleFile fi).errors ≠ [] := by
    intro hnil
    have hl := (validateSingleFile_errors_length fi).1
    rw [hnil] at hl
    simp at hl
    omega
  refine ⟨?_, fun fi2 => validateSingleFile_errors_length fi2, ?_⟩
  · rw [validateFiles_isValid_eq]
    have : (validateFiles files).errors ≠ [] := by
      rw [validateFiles_errors_eq]
      intro hnil
      rw [List.append_eq_nil] at hnil
      have hflat := hnil.2
      rw [List.flatten_eq_nil_iff] at hflat
      exact hne (hflat _ (List.mem_map_of_mem _ hfi))
    simpa [List.isEmpty_iff] using this
  · intro hlen
    have h0 : ¬ files.length = 0 := by
      intro hz
      rw [List.eq_nil_of_length_eq_zero hz] at hfi
      cases hfi
    have h20 : ¬ files.length > MAX_FILES_PER_BATCH := by omega
    rw [validateFiles_errors_eq, if_neg h0, if_neg h20]
    simp only [List.nil_append, List.append_nil, List.length_flatten, List.map_map]
    congr 1
    apply List.map_congr_left
    intro fi2 _
    exact (validateSingleFile_errors_length fi2).1

/-- Witness for C6 (amended) on a concrete batch with one policy-violating
file among two valid ones. -/
theorem validateFiles_error_accumulation_witness :
    (∃ fi ∈ [demoValidFile, demoBadFile, demoFileA], violatesPolicy fi = true)
    ∧ (validateFiles [demoValidFile, demoBadFile, demoFileA]).isValid = false
    ∧ ([demoValidFile, demoBadFile, demoFileA].length ≤ MAX_FILES_PER_BATCH →
        (validateFiles [demoValidFile, demoBadFile, demoFileA]).errors.length =
          ([demoValidFile, demoBadFile, demoFileA].map ruleViolationCount).sum) := by
  have h : ∃ fi ∈ [demoValidFile, demoBadFile, demoFileA], violatesPolicy fi = true := by
    decide
  have main := validateFiles_error_accumulation [demoValidFile, demoBadFile, demoFileA] h
  exact ⟨h, main.1, main.2.2⟩

/-! ## C7 — progress-event sequence of a successful conversion -/

/-- C7: every conversion that completes successfully emits exactly four
progress events, all carrying the item's conversion id and file name, in the
strict order reading (0) → processing (25) → converting (50) →
finalizing (100), with no back-transition and no repeated stage. -/
theorem convertToWebP_progress_sequence (now : Nat) (id : String) (f : FileInfo)
    (b : ItemBehavior) (h : itemFulfills now (id, f, b) = true) :
    progressEvents (convertToWebP now id f b).1 =
      [progressInfo1 id f, progressInfo2 id f, progressInfo3 id f, progressInfo4 id f] := by
  rw [itemFulfills, runBatchItem] at h
  cases hout : (convertToWebP now id f b).2 with
  | error e =>
    rw [hout] at h
    simp at h
  | ok r =>
    obtain ⟨h1, h2, h3, -⟩ := convertToWebP_ok_inv now id f b r hout
    rw [convertToWebP_success now id f b h1 h2 h3]
    simp [progressEvents]

/-- Witness for C7 at a concrete successful conversion. -/
theorem convertToWebP_progress_sequence_witness :
    itemFulfills 9 ("cid1", demoFileA, demoBehaviorOk) = true
    ∧ progressEvents (convertToWebP 9 "cid1" demoFileA demoBehaviorOk).1 =
        [progressInfo1 "cid1" demoFileA, progressInfo2 "cid1" demoFileA,
         progressInfo3 "cid1" demoFileA, progressInfo4 "cid1" demoFileA] :=
  ⟨rfl, convertToWebP_progress_sequence 9 "cid1" demoFileA demoBehaviorOk rfl⟩

/-! ## C8 — cancellation -/

lemma createConversionError_cancelled (now : Nat) (id fn : String) :
    createConversionError now id fn "Conversion was cancelled" =
      { id := id, fileName := fn, errorType := .processingError,
        message := "変換がキャンセルされました 🚫",
        details := "Error: " ++ "Conversion was cancelled", timestamp := now } := by
  have h : strIncludes "Conversion was cancelled" "cancelled" = true := by decide
  simp [createConversionError, h]

/-- C8: a conversion whose cancellation token is set while stage `k`
(reading, processing or converting) is in flight — and which has not already
failed on its own — is aborted at the next stage-boundary check: it settles
with a `ConversionError` classified as a processing error with the cancelled
message, carrying the item's id and file name; its trace holds only the
progress events of the stages already started, followed by the single error
event — no completion event and no further progress events.  The second
conjunct is the frame property: the trace and outcome of a batch item at
position `i` depend only on that item, so aborting one in-flight conversion
leaves every other in-flight conversion's trace and outcome unchanged. -/
theorem cancellation_aborts_with_processing_error :
    (∀ (now : Nat) (id : String) (f : FileInfo) (b : ItemBehavior) (k : Nat),
      b.cancelDuring = some k → 1 ≤ k → k ≤ 3 → b.readErr = none →
      (k = 3 → b.convertOk = true) →
      ∃ e : ConversionError,
        (convertToWebP now id f b).2 = Except.error e
        ∧ e.errorType = ErrorType.processingError
        ∧ e.message = "変換がキャンセルされました 🚫"
        ∧ e.id = id ∧ e.fileName = f.name
        ∧ (convertToWebP now id f b).1 =
            ([Event.progress (progressInfo1 id f), Event.progress (progressInfo2 id f),
              Event.progress (progressInfo3 id f)].take k) ++ [Event.errorEv e])
    ∧ (∀ (now : Nat) (items items' : List BatchItem) (i : Nat),
        i < items.length → i < items'.length →
        items.getD i dummyBatchItem = items'.getD i dummyBatchItem →
        (items.map (runBatchItem now)).getD i dummyTrace =
          (items'.map (runBatchItem now)).getD i dummyTrace) := by
  constructor
  · intro now id f b k hcd hk1 hk3 hre hc3
    interval_cases k
    · have ha1 : abortedAtBoundary b 1 = true := by simp [abortedAtBoundary, hcd]
      refine ⟨⟨id, f.name, .processingError, "変換がキャンセルされました 🚫",
        "Error: " ++ "Conversion was cancelled", now⟩, ?_, rfl, rfl, rfl, rfl, ?_⟩
      · rw [convertToWebP_cancelled1 now id f b hre ha1, createConversionError_cancelled]
      · rw [convertToWebP_cancelled1 now id f b hre ha1, createConversionError_cancelled]
        rfl
    · have ha1 : abortedAtBoundary b 1 = false := by simp [abortedAtBoundary, hcd]
      have ha2 : abortedAtBoundary b 2 = true := by simp [abortedAtBoundary, hcd]
      refine ⟨⟨id, f.name, .processingError, "変換がキャンセルされました 🚫",
        "Error: " ++ "Conversion was cancelled", now⟩, ?_, rfl, rfl, rfl, rfl, ?_⟩
      · rw [convertToWebP_cancelled2 now id f b hre ha1 ha2, createConversionError_cancelled]
      · rw [convertToWebP_cancelled2 now id f b hre ha1 ha2, createConversionError_cancelled]
        rfl
    · have ha1 : abortedAtBoundary b 1 = false := by simp [abortedAtBoundary, hcd]
      have ha2 : abortedAtBoundary b 2 = false := by simp [abortedAtBoundary, hcd]
      have ha3 : abortedAtBoundary b 3 = true := by simp [abortedAtBoundary, hcd]
      have hc : b.convertOk = true := hc3 rfl
      refine ⟨⟨id, f.name, .processingError, "変換がキャンセルされました 🚫",
        "Error: " ++ "Conversion was cancelled", now⟩, ?_, rfl, rfl, rfl, rfl, ?_⟩
      · rw [convertToWebP_cancelled3 now id f b hre ha1 ha2 hc ha3,
          createConversionError_cancelled]
      · rw [convertToWebP_cancelled3 now id f b hre ha1 ha2 hc ha3,
          createConversionError_cancelled]
        rfl
  · intro now items items' i h1 h2 hEq
    rw [List.getD_eq_getElem?_getD, List.getD_eq_getElem?_getD,
      List.getElem?_map, List.getElem?_map]
    rw [List.getD_eq_getElem?_getD, List.getD_eq_getElem?_getD,
      List.getElem?_eq_getElem h1, List.getElem?_eq_getElem h2] at hEq
    simp only [Option.getD_some] at hEq
    rw [List.getElem?_eq_getElem h1, List.getElem?_eq_getElem h2]
    simp only [Option.map_some', Option.getD_some, hEq]

/-- Witness for C8 at a conversion cancelled while stage 2 is in flight. -/
theorem cancellation_aborts_with_processing_error_witness :
    demoBehaviorCancel2.cancelDuring = some 2
    ∧ ∃ e : ConversionError,
        (convertToWebP 9 "cid2" demoFileA demoBehaviorCancel2).2 = Except.error e
        ∧ e.errorType = ErrorType.processingError
        ∧ e.message = "変換がキャンセルされました 🚫"
        ∧ e.id = "cid2" ∧ e.fileName = demoFileA.name
        ∧ (convertToWebP 9 "cid2" demoFileA demoBehaviorCancel2).1 =
            ([Event.progress (progressInfo1 "cid2" demoFileA),
              Event.progress (progressInfo2 "cid2" demoFileA),
              Event.progress (progressInfo3 "cid2" demoFileA)].take 2) ++ [Event.errorEv e] :=
  ⟨rfl, cancellation_aborts_with_processing_error.1 9 "cid2" demoFileA demoBehaviorCancel2 2
    rfl (by decide) (by decide) rfl (fun _ => rfl)⟩

/-! ## C1 — what convertMultiple returns under partial failure -/

lemma convertMultiple_events_eq (now n : Nat) (hn : 0 < n) (items : List BatchItem) :
    (convertMultiple now n items).2 = (items.map fun it => (runBatchItem now it).1).flatten := by
  show (((chunks n items).map fun c =>
      (c.map fun it => (runBatchItem now it).1).flatten).flatten) = _
  rw [flatten_map_flatten (fun it => (runBatchItem now it).1) (chunks n items),
    chunks_flatten n hn]

/-- Counterexample to C1 as frozen: in a 3-file batch processed as one chunk
(`maxConcurrentConversions = 3`) whose middle file fails, both sibling
conversions succeed, yet `convertMultiple` returns the empty list — the
successfully completed conversions are omitted from the returned list
(`Promise.all` rejects on the failed sibling and the `catch` drops the whole
chunk's results), while exactly one error event is emitted. -/
theorem convertMultiple_drops_sibling_results :
    (convertMultiple 0 3 demoItems).1 = []
    ∧ (demoItems.filterMap (itemResult 0)).length = 2
    ∧ (errorEvents (convertMultiple 0 3 demoItems).2).length = 1 := by
  decide

/-- C1 (amended): `convertMultiple` never rethrows a conversion failure, and
returns the concatenated results of exactly those chunks in which every item
succeeded — a failure in one item of a chunk drops that entire chunk's
results (sibling successes included) from the returned list, while the
other chunks are unaffected.  Every failure is reported through the error
event channel, exactly one error event per failing item, and sibling
successes still emit their completion events; when no item fails, the
returned list holds every result. -/
theorem convertMultiple_chunk_granularity (now n : Nat) (items : List BatchItem)
    (hn : 0 < n) :
    (convertMultiple now n items).1 =
        (((chunks n items).filter (chunkAllOk now)).map fun c =>
          c.filterMap (itemResult now)).flatten
    ∧ errorEvents (convertMultiple now n items).2 = items.filterMap (itemError now)
    ∧ completeEvents (convertMultiple now n items).2 = items.filterMap (itemResult now)
    ∧ ((∀ it ∈ items, itemFulfills now it = true) →
        (convertMultiple now n items).1 = items.filterMap (itemResult now)) := by
  refine ⟨?_, ?_, ?_, ?_⟩
  · show (((chunks n items).map fun c =>
        if chunkAllOk now c then c.filterMap (itemResult now) else []).flatten) = _
    exact flatten_map_ite_filter (chunkAllOk now)
      (fun c => c.filterMap (itemResult now)) (chunks n items)
  · rw [convertMultiple_events_eq now n hn items]
    simp only [errorEvents]
    rw [filterMap_flatten, List.map_map, ← flatten_map_toList (itemError now) items]
    congr 1
    apply List.map_congr_left
    intro it _
    simpa [errorEvents] using errorEvents_runBatchItem now it
  · rw [convertMultiple_events_eq now n hn items]
    simp only [completeEvents]
    rw [filterMap_flatten, List.map_map, ← flatten_map_toList (itemResult now) items]
    congr 1
    apply List.map_congr_left
    intro it _
    simpa [completeEvents] using completeEvents_runBatchItem now it
  · intro hall
    have hfil : (chunks n items).filter (chunkAllOk now) = chunks n items := by
      apply List.filter_eq_self.mpr
      intro c hc
      rw [chunkAllOk, List.all_eq_true]
      intro it hit
      exact hall it (by
        rw [← chunks_flatten n hn items]
        exact List.mem_flatten.mpr ⟨c, hc, hit⟩)
    show (((chunks n items).map fun c =>
        if chunkAllOk now c then c.filterMap (itemResult now) else []).flatten) = _
    rw [flatten_map_ite_filter, hfil]
    conv_rhs => rw [← chunks_flatten n hn items, filterMap_flatten]

/-- Witness for C1 (amended): channel contents of the demo batch. -/
theorem convertMultiple_chunk_granularity_witness :
    0 < 3
    ∧ errorEvents (convertMultiple 0 3 demoItems).2 = demoItems.filterMap (itemError 0)
    ∧ completeEvents (convertMultiple 0 3 demoItems).2 = demoItems.filterMap (itemResult 0) :=
  ⟨by decide, (convertMultiple_chunk_granularity 0 3 demoItems (by decide)).2.1,
    (convertMultiple_chunk_granularity 0 3 demoItems (by decide)).2.2.1⟩

/-! ## C2 — chunk partition and settling order -/

/-- Counterexample to C2 as frozen: with `maxConcurrentConversions = 2` and
the demo timings, the first item of chunk 0 fulfills at tick 5, but its
sibling rejects at tick 1, so `Promise.all` settles and chunk 1's work
starts at tick 1 — before every item of chunk 0 has reached a terminal
state. -/
theorem chunk_start_before_prior_settle :
    demoTimings.getD 0 ⟨true, 0⟩ ∈ (chunks 2 demoTimings).getD 0 []
    ∧ (demoTimings.getD 0 ⟨true, 0⟩).ok = true
    ∧ (startTimes (chunks 2 demoTimings) 0).getD 1 0 <
        (startTimes (chunks 2 demoTimings) 0).getD 0 0 +
          (demoTimings.getD 0 ⟨true, 0⟩).duration := by
  decide

/-- C2 (amended): for `maxConcurrentConversions = n ≥ 1`, `convertMultiple`
partitions its input into consecutive chunks of size `n` (every chunk
non-empty and of size at most `n`, every chunk but the last of size exactly
`n`, and their concatenation the input in order); one chunk is in flight at
a time, each chunk starting when the previous chunk's `Promise.all`
settles; and whenever every item of a chunk fulfills, the next chunk does
not start until every item of that chunk has settled.  (When an item of a
chunk rejects, the next chunk may start while slower siblings of the failed
chunk are still in flight — the frozen claim's unconditional guarantee fails,
see the counterexample.) -/
theorem convertMultiple_chunking_and_settling (n : Nat) (hn : 0 < n)
    (files : List BatchItem) (timings : List ItemTiming) (t0 : Nat) :
    ((chunks n files).flatten = files)
    ∧ (∀ c ∈ chunks n files, 0 < c.length ∧ c.length ≤ n)
    ∧ (∀ c ∈ (chunks n files).dropLast, c.length = n)
    ∧ ((startTimes (chunks n timings) t0).length = (chunks n timings).length)
    ∧ (∀ k, k + 1 < (chunks n timings).length →
        ((chunks n timings).getD k []).all (·.ok) = true →
        ∀ it ∈ (chunks n timings).getD k [],
          (startTimes (chunks n timings) t0).getD k 0 + it.duration ≤
            (startTimes (chunks n timings) t0).getD (k + 1) 0) :=
  ⟨chunks_flatten n hn files,
    fun c hc => chunksAux_length_bounds n hn files.length files le_rfl c hc,
    fun c hc => chunksAux_dropLast_full n hn files.length files le_rfl c hc,
    startTimes_length _ t0,
    fun k hk hok it hit => startTimes_settle (chunks n timings) t0 k hk hok it hit⟩

/-- Witness for C2 (amended) on the demo batch and timings. -/
theorem convertMultiple_chunking_and_settling_witness :
    0 < 2
    ∧ (chunks 2 demoItems).flatten = demoItems
    ∧ (∀ c ∈ chunks 2 demoItems, 0 < c.length ∧ c.length ≤ 2)
    ∧ (∀ c ∈ (chunks 2 demoItems).dropLast, c.length = 2)
    ∧ ((startTimes (chunks 2 demoTimings) 3).length = (chunks 2 demoTimings).length) :=
  ⟨by decide,
    (convertMultiple_chunking_and_settling 2 (by decide) demoItems demoTimings 3).1,
    (convertMultiple_chunking_and_settling 2 (by decide) demoItems demoTimings 3).2.1,
    (convertMultiple_chunking_and_settling 2 (by decide) demoItems demoTimings 3).2.2.1,
    (convertMultiple_chunking_and_settling 2 (by decide) demoItems demoTimings 3).2.2.2.1⟩

end WebpMaster
